import Mathlib

/-!
Verification development for the SF133 apportionment ingestion pipeline.

The definitions below are shallow embeddings of the Python source:
* `src/code/parse_sf133_raw_data.py` — unit detection, TAFS parsing, the
  per-file validation against authoritative FY1/FY2/ALLOC columns, and the
  standard-layout record aggregation;
* `src/code/parse_sf133_2012.py` — the 2012 single-month-per-file layout:
  per-file aggregation and the cross-file month pivot;
* `src/code/generate_summary.py` — TAFS component parsing for both layouts
  and the line-2490/line-2500 account summary merge;
* `src/code/year_processor.py` — the month-completeness validation.

Numeric cell values are modelled as `ℚ` (the Python code uses floats; all
facts proved here involve only exact small decimals).  Pandas tables are
modelled as lists of records; a `groupby(...).agg(...)` is modelled as
"one output row per distinct key, amount columns summed (missing = 0,
pandas `skipna`), descriptive columns taking the first value in the
group".  Group order is irrelevant to every property proved here (pandas
sorts the keys; we enumerate them with `List.dedup`).

String operations mirror Python string semantics and are implemented by
structural recursion over `List Char` so that every concrete instance
evaluates inside the kernel.
-/

/-! ### Python string semantics, on character lists -/

/-- Whether `pat` is a leading run of `s`. -/
def chStartsWith : List Char → List Char → Bool
  | _, [] => true
  | [], _ :: _ => false
  | a :: as, b :: bs => a = b && chStartsWith as bs

/-- Fuel-bounded splitter on a non-empty separator: scans left to right,
cutting at each non-overlapping occurrence (the fuel is the string length,
which bounds the number of scan steps). -/
def chSplitOnFuel (pat : List Char) : Nat → List Char → List Char →
    List (List Char)
  | _, [], acc => [acc.reverse]
  | 0, s, acc => [acc.reverse ++ s]
  | fuel + 1, c :: rest, acc =>
    if !pat.isEmpty && chStartsWith (c :: rest) pat then
      acc.reverse :: chSplitOnFuel pat fuel (rest.drop (pat.length - 1)) []
    else
      chSplitOnFuel pat fuel rest (c :: acc)

/-- Splitting into maximal whitespace-free runs (Python `str.split()`). -/
def chSplitWsAux : List Char → List Char → List (List Char)
  | [], acc => if acc.isEmpty then [] else [acc.reverse]
  | c :: rest, acc =>
    if c.isWhitespace then
      if acc.isEmpty then chSplitWsAux rest []
      else acc.reverse :: chSplitWsAux rest []
    else chSplitWsAux rest (c :: acc)

/-- Joining with a separator. -/
def chIntercalate (sep : List Char) : List (List Char) → List Char
  | [] => []
  | [x] => x
  | x :: y :: xs => x ++ sep ++ chIntercalate sep (y :: xs)

/-- Stripping whitespace from both ends (Python `str.strip()`). -/
def chTrim (s : List Char) : List Char :=
  ((s.dropWhile Char.isWhitespace).reverse.dropWhile Char.isWhitespace).reverse

/-! ### Python string semantics, on strings -/

/-- Python `s.split(sep)` for non-empty `sep` (an empty separator never
occurs in the source). -/
def sSplitOn (s pat : String) : List String :=
  if pat.data.isEmpty then [s]
  else (chSplitOnFuel pat.data s.data.length s.data []).map String.mk

/-- Python `pat in s` (substring containment, non-empty pattern). -/
def containsSub (s pat : String) : Bool :=
  (sSplitOn s pat).length ≠ 1

/-- Python `s.replace(old, new)`: replace every non-overlapping occurrence
left to right. -/
def sReplace (s old new : String) : String :=
  String.mk (chIntercalate new.data ((sSplitOn s old).map String.data))

/-- Python `sep.join(xs)`. -/
def sIntercalate (sep : String) (xs : List String) : String :=
  String.mk (chIntercalate sep.data (xs.map String.data))

/-- Python `str.split()` with no separator: split on whitespace runs,
dropping empty pieces. -/
def pySplitWs (s : String) : List String :=
  (chSplitWsAux s.data []).map String.mk

/-- Python `s.startswith(pat)`. -/
def sStartsWith (s pat : String) : Bool :=
  chStartsWith s.data pat.data

/-- Python `s.strip()`. -/
def sTrim (s : String) : String :=
  String.mk (chTrim s.data)

/-- Python `s[n:]`. -/
def sDrop (s : String) (n : Nat) : String :=
  String.mk (s.data.drop n)

/-- Python `len(s)` (all inputs here are ASCII). -/
def sLength (s : String) : Nat :=
  s.data.length

/-- Python `s.lower()` (ASCII). -/
def sToLower (s : String) : String :=
  String.mk (s.data.map Char.toLower)

/-- Python `s.upper()` (ASCII). -/
def sToUpper (s : String) : String :=
  String.mk (s.data.map Char.toUpper)

/-- Python `str.isdigit` (ASCII): non-empty and all characters digits. -/
def pyIsDigit (s : String) : Bool :=
  !s.data.isEmpty && s.data.all Char.isDigit

/-- Python `str(int(s))` for a digit string: strip leading zeros
(`"06" ↦ "6"`, `"00" ↦ "0"`). -/
def pyStrInt (s : String) : String :=
  let t := s.data.dropWhile (fun c => c = '0')
  if t.isEmpty then "0" else String.mk t

/-- Python `s.zfill(2)`: left-pad with `'0'` to length at least 2. -/
def zfill2 (s : String) : String :=
  if sLength s ≥ 2 then s
  else if sLength s = 1 then "0" ++ s
  else "00"

/-- Python `s.split(sep, 1)`: split at the first occurrence of `sep` only.
Returns the part before the separator and, when the separator occurs, the
remainder of the string. -/
def splitOnce (s sep : String) : String × Option String :=
  match sSplitOn s sep with
  | [] => (s, none)
  | [a] => (a, none)
  | a :: rest => (a, some (sIntercalate sep rest))

/-! ### Unit detection — `detect_file_units` (parse_sf133_raw_data.py:13-40)

The scanned header region of the `TAFS detail` sheet is modelled as the
list of its non-null cell values rendered as strings; the function joins
their lowercased forms with spaces and looks for the tokens.  A failed
sheet read (e.g. the sheet is missing) is modelled as `none`. -/

/-- The joined, lowercased text of the scanned header cells
(`' '.join(str(val).lower() for ...)`). -/
def textContent (cells : List String) : String :=
  sIntercalate " " (cells.map sToLower)

/-- `detect_file_units`: 1000 when `'thousand'` occurs in the header text,
otherwise 1 when `'dollar'` occurs, otherwise 1 (undetected default); any
read error (`none`) also yields 1. -/
def detectFileUnits (sheet : Option (List String)) : Nat :=
  match sheet with
  | none => 1
  | some cells =>
    let t := textContent cells
    if containsSub t "thousand" then 1000
    else if containsSub t "dollar" then 1
    else 1

/-- The identifier columns that are never scaled
(parse_sf133_raw_data.py:163). -/
def amountDenylist : List String :=
  ["LINENO", "RPT_YR", "TRAG", "TRACCT", "ALLOC", "FY1", "FY2",
   "SECTION_NO", "LINE_TYPE"]

/-- Application of the unit multiplier to the numeric columns of a row
(parse_sf133_raw_data.py:159-164): when the multiplier is 1 nothing is
touched; otherwise every numeric column not on the denylist is scaled. -/
def applyUnitMultiplier (mult : Nat) (cols : List (String × ℚ)) :
    List (String × ℚ) :=
  if mult = 1 then cols
  else cols.map (fun p => if p.1 ∈ amountDenylist then p else (p.1, p.2 * mult))

/-! ### TAFS parsing (parse_sf133_raw_data.py:208-311) -/

/-- The cleaning applied to a TAFS string before parsing: remove carriage
return artifacts, then collapse whitespace (`' '.join(s.split())`). -/
def cleanTafs (s : String) : String :=
  let s1 := sReplace (sReplace (sReplace (sReplace (sReplace s
      "_x000D_\n" "") "_x000D_" "") "\r\n" " ") "\r" " ") "\n" " "
  sIntercalate " " (pySplitWs s1)

/-- `parse_tafs_to_match_fy1_fy2` (parse_sf133_raw_data.py:208-246):
extract the `(FY1, FY2)` pair from a TAFS string.  A missing value
(`pd.isna`) is modelled as `none`. -/
def parseTafsToMatchFy1Fy2 (tafs : Option String) : String × String :=
  match tafs with
  | none => ("", "")
  | some t =>
    if t = "" then ("", "")
    else
      let tafsStr := cleanTafs t
      let codePart :=
        if containsSub tafsStr " - " then
          sTrim ((sSplitOn tafsStr " - ").headD "")
        else sTrim tafsStr
      let parts := pySplitWs codePart
      if parts.length ≥ 2 then
        let periodPart := parts.getLastD ""
        if periodPart = "/X" then ("", "X")
        else if sStartsWith periodPart "/" then
          ("", sTrim (sDrop periodPart 1))
        else if containsSub periodPart "/" then
          let yearParts := sSplitOn periodPart "/"
          if yearParts.length = 2 then
            (sTrim (yearParts.headD ""), sTrim (yearParts.getD 1 ""))
          else ("", "")
        else ("", "")
      else ("", "")

/-- `derive_alloc_from_tafs` (parse_sf133_raw_data.py:271-308): extract
the bureau/allocation code from a TAFS string (middle segment of a 3-part
account code, first segment of a 2-part one). -/
def deriveAllocFromTafs (tafs : Option String) : String :=
  match tafs with
  | none => ""
  | some t =>
    if t = "" then ""
    else
      let tafsStr := cleanTafs t
      let codePart :=
        if containsSub tafsStr " - " then
          sTrim ((sSplitOn tafsStr " - ").headD "")
        else sTrim tafsStr
      let accountPart :=
        if containsSub codePart " /" then
          sTrim ((sSplitOn codePart " /").headD "")
        else if containsSub codePart " " &&
            !(sStartsWith ((pySplitWs codePart).getD 1 "") "/") then
          sTrim ((pySplitWs codePart).headD "")
        else sTrim codePart
      let parts := sSplitOn accountPart "-"
      if parts.length ≥ 3 then sTrim (parts.getD 1 "")
      else if parts.length = 2 then sTrim (parts.getD 0 "")
      else ""

/-- `normalize_fy_field` (parse_sf133_raw_data.py:331-355): normalization
applied to both sides before the authoritative-column comparison.  Missing
values (`pd.isna`) are `none`.  The decimal-suffix handling covers the
shapes the comparison meets (`"12.0" ↦ "12"`); a string that is not such
a decimal is left as is (Python's `except ValueError: pass`). -/
def normalizeFyField (field : Option String) : String :=
  match field with
  | none => ""
  | some s0 =>
    if s0 = "" || s0 = "nan" then ""
    else
      let s := sTrim s0
      let s1 :=
        if containsSub s "." then
          match sSplitOn s "." with
          | [ip, fp] =>
            if pyIsDigit ip && !fp.data.isEmpty &&
                fp.data.all (fun c => c = '0') then
              pyStrInt ip
            else s
          | _ => s
        else s
      let s2 :=
        if pyIsDigit s1 then
          (if sLength s1 ≤ 2 then zfill2 (pyStrInt s1) else s1)
        else s1
      if sToUpper s2 = "X" then "X" else s2

/-! ### TAFS component parsing — `parse_tafs_components`
(generate_summary.py:12-94).  Returns
`(account_number, period_of_performance, expiration_year)`. -/

/-- `parse_tafs_components`: the catch-all ("Other Independent Agencies")
grammar takes the whole first space-separated token as the account number
and the second token as the period marker; the standard grammar splits the
code part on hyphens and joins 2 or 3 leading segments. -/
def parseTafsComponents (tafs : String) (agencyName : String) :
    String × String × String :=
  let tafsParts :=
    if containsSub tafs " - " then (sSplitOn tafs " - ").headD "" else tafs
  if agencyName = "Other Independent Agencies" then
    match pySplitWs (sTrim tafsParts) with
    | [] => ("", "", "")
    | accountNum :: rest =>
      match rest with
      | [] => (accountNum, "", "")
      | yearPart :: _ =>
        if yearPart = "/X" then (accountNum, "No Year", "No Year")
        else if containsSub yearPart "/" then
          if sStartsWith yearPart "/" then
            let yr := sDrop yearPart 1
            if pyIsDigit yr then (accountNum, "FY20" ++ yr, "20" ++ yr)
            else (accountNum, "", "")
          else
            match sSplitOn yearPart "/" with
            | [y0, y1] =>
              if pyIsDigit y0 && pyIsDigit y1 then
                let s := if sLength y0 = 2 then "20" ++ y0 else y0
                let e := if sLength y1 = 2 then "20" ++ y1 else y1
                (accountNum, "FY" ++ s ++ "-FY" ++ e, e)
              else (accountNum, "", "")
            | _ => (accountNum, "", "")
        else (accountNum, "", "")
  else
    let parts := splitOnce tafsParts " "
    let codePart := parts.1
    let yearPart := parts.2.getD ""
    let codePieces := sSplitOn codePart "-"
    let accountNum :=
      if codePieces.length ≥ 3 then sIntercalate "-" (codePieces.take 3)
      else if codePieces.length = 2 then sIntercalate "-" (codePieces.take 2)
      else ""
    if yearPart ≠ "" then
      let yp := sTrim yearPart
      if containsSub yp "/" then
        if sStartsWith yp "/" then
          let yearVal := sDrop yp 1
          if yearVal = "X" then (accountNum, "No Year", "No Year")
          else if pyIsDigit yearVal then
            (accountNum, "FY20" ++ yearVal, "20" ++ yearVal)
          else (accountNum, "", "")
        else
          match sSplitOn yp "/" with
          | [startYear, endYear] =>
            if pyIsDigit startYear && pyIsDigit endYear then
              let s := if sLength startYear = 2 then "20" ++ startYear
                else startYear
              let e := if sLength endYear = 2 then "20" ++ endYear
                else endYear
              (accountNum, "FY" ++ s ++ "-FY" ++ e, e)
            else if endYear = "X" then
              let s := if sLength startYear = 2 then "20" ++ startYear
                else startYear
              (accountNum, "FY" ++ s ++ "-No Year", "No Year")
            else (accountNum, "", "")
          | _ => (accountNum, "", "")
      else (accountNum, "", "")
    else (accountNum, "", "")

/-- Account display name taken from the TAFS text
(generate_summary.py:168-170): the part after the first `" - "`, empty
when no separator is present. -/
def extractAccountName (tafs : String) : String :=
  if containsSub tafs " - " then ((splitOnce tafs " - ").2.getD "") else ""

/-! ### Account summary merge (generate_summary.py:96-288) -/

/-- The percent-unobligated rule (generate_summary.py:157-160 and 234-237):
0 when both are zero, 100 when budget authority is zero and the balance is
non-zero, otherwise `balance/authority*100` with no clamping.  (The
CSV/JSON writers later round this value to one decimal for display.) -/
def pctCalc (unob ba : ℚ) : ℚ :=
  if ba = 0 then (if unob = 0 then 0 else 100) else unob / ba * 100

/-- One master-table row for a standard (non-OIA) agency, restricted to
the columns the merge touches: `Line No` after `pd.to_numeric` (so
`Option ℚ`), the merge key columns `Agency`/`Col_4` (TAFS text), the
descriptive columns `Col_0`/`Col_1`, and the selected month column's
amount. -/
structure MasterRow where
  agency : String
  col0 : String
  col1 : String
  col4 : String
  lineNo : Option ℚ
  amt : ℚ
deriving DecidableEq, Repr

/-- One master-table row for the Other Independent Agencies layout: line
numbers live in `Col_9` (numeric after coercion), the TAFS text in
`Col_6`, and the amount in the selected `<Mon> AMT` column. -/
structure OIARow where
  agency : String
  col0 : String
  col1 : String
  col2 : String
  col4 : String
  col6 : String
  col9 : Option ℚ
  amt : ℚ
deriving DecidableEq, Repr

/-- One produced summary record (the fields of `summary_data` entries that
the claims mention).  `unob`/`ba` are in millions as in the code. -/
structure SummaryRec where
  agency : String
  bureau : String
  account : String
  accountNumber : String
  periodOfPerf : String
  expirationYear : String
  tafs : String
  unob : ℚ
  ba : ℚ
  pct : ℚ
deriving Repr, Inhabited

/-- Standard-agency rows whose `Line No` is 2490
(generate_summary.py:122). -/
def line2490 (rows : List MasterRow) : List MasterRow :=
  rows.filter (fun r => r.lineNo = some 2490)

/-- Standard-agency rows whose `Line No` is 2500
(generate_summary.py:123). -/
def line2500 (rows : List MasterRow) : List MasterRow :=
  rows.filter (fun r => r.lineNo = some 2500)

/-- The inner merge of line-2490 and line-2500 rows on
`['Agency', 'Col_4']` (generate_summary.py:140-145): one output pair per
matching left/right combination, exactly pandas' inner join. -/
def mergedStandard (rows : List MasterRow) : List (MasterRow × MasterRow) :=
  (line2490 rows).flatMap (fun a =>
    ((line2500 rows).filter
      (fun b => b.agency = a.agency ∧ b.col4 = a.col4)).map (fun b => (a, b)))

/-- The standard-agency summary rows built from the merged pairs
(generate_summary.py:152-185): amounts to millions, the percent rule,
TAFS components, account name from the TAFS text with `Col_1` fallback. -/
def summaryStandard (rows : List MasterRow) : List SummaryRec :=
  (mergedStandard rows).map (fun p =>
    let a := p.1
    let b := p.2
    let unob := a.amt / 1000000
    let ba := b.amt / 1000000
    let comps := parseTafsComponents a.col4 a.agency
    let nameFromTafs := extractAccountName a.col4
    { agency := a.agency
      bureau := a.col0
      account := if nameFromTafs = "" then a.col1 else nameFromTafs
      accountNumber := comps.1
      periodOfPerf := comps.2.1
      expirationYear := comps.2.2
      tafs := a.col4
      unob := unob
      ba := ba
      pct := pctCalc unob ba })

/-- OIA rows whose coerced `Col_9` is 2490 (generate_summary.py:200). -/
def oia2490 (rows : List OIARow) : List OIARow :=
  rows.filter (fun r => r.col9 = some 2490)

/-- OIA rows whose coerced `Col_9` is 2500 (generate_summary.py:201). -/
def oia2500 (rows : List OIARow) : List OIARow :=
  rows.filter (fun r => r.col9 = some 2500)

/-- The inner merge of the OIA line-2490 and line-2500 rows on `Col_6`
(generate_summary.py:218-223). -/
def mergedOIA (rows : List OIARow) : List (OIARow × OIARow) :=
  (oia2490 rows).flatMap (fun a =>
    ((oia2500 rows).filter (fun b => b.col6 = a.col6)).map (fun b => (a, b)))

/-- The OIA summary rows (generate_summary.py:228-279): same percent rule,
TAFS text from `Col_6`, bureau from the text after the first whitespace
run of `Col_2` with the account name as fallback. -/
def summaryOIA (rows : List OIARow) : List SummaryRec :=
  (mergedOIA rows).map (fun p =>
    let a := p.1
    let b := p.2
    let unob := a.amt / 1000000
    let ba := b.amt / 1000000
    let tafsFull := a.col6
    let accountName := extractAccountName tafsFull
    let comps := parseTafsComponents tafsFull "Other Independent Agencies"
    let bureau0 :=
      match pySplitWs (sTrim a.col2) with
      | _ :: rest => if rest.isEmpty then "" else sTrim (sIntercalate " " rest)
      | [] => ""
    { agency := "Other Independent Agencies"
      bureau := if bureau0 = "" then accountName else bureau0
      account := accountName
      accountNumber := comps.1
      periodOfPerf := comps.2.1
      expirationYear := comps.2.2
      tafs := tafsFull
      unob := unob
      ba := ba
      pct := pctCalc unob ba })

/-! ### Per-file grammar validation and the run loop
(parse_sf133_raw_data.py:326-424 and 522-555)

`parse_sf133_raw_data` derives FY1/FY2/ALLOC from each row's TAFS text
and, when the authoritative columns are present, requires a 100%
normalized match; any mismatch raises `ValueError` (lines 391 and 424).
That raise happens *inside* the function's own `try`, whose
`except Exception` (line 522) returns `None`.  `parse_all_sf133_raw_data`
treats a `None` result as "no data extracted", skips the file, and
continues; it writes the combined master table from whatever files
succeeded.  The model below reproduces exactly that control flow for
files whose authoritative columns are present. -/

/-- One raw-data row restricted to the fields the grammar validation
touches: the TAFS text and the authoritative `FY1`/`FY2`/`ALLOC` column
values (`none` = `NaN`/column value missing). -/
structure InputRow where
  tafs : String
  fy1 : Option String
  fy2 : Option String
  alloc : Option String
deriving DecidableEq, Repr

/-- A row fails the FY1 check when its authoritative `FY1` normalizes to
actual data that differs from the normalized TAFS-derived value
(parse_sf133_raw_data.py:357-374). -/
def rowFy1Mismatch (r : InputRow) : Bool :=
  let c := normalizeFyField r.fy1
  c ≠ "" && c ≠ "nan" &&
    c ≠ normalizeFyField (some (parseTafsToMatchFy1Fy2 (some r.tafs)).1)

/-- The FY2 analogue of `rowFy1Mismatch`. -/
def rowFy2Mismatch (r : InputRow) : Bool :=
  let c := normalizeFyField r.fy2
  c ≠ "" && c ≠ "nan" &&
    c ≠ normalizeFyField (some (parseTafsToMatchFy1Fy2 (some r.tafs)).2)

/-- The ALLOC analogue (parse_sf133_raw_data.py:397-424). -/
def rowAllocMismatch (r : InputRow) : Bool :=
  let c := normalizeFyField r.alloc
  c ≠ "" && c ≠ "nan" &&
    c ≠ normalizeFyField (some (deriveAllocFromTafs (some r.tafs)))

/-- A file fails strict grammar validation when any row mismatches: the
match rates at lines 377 and 416 are below 100% exactly when some tested
row disagrees. -/
def fileHasMismatch (rows : List InputRow) : Bool :=
  rows.any (fun r => rowFy1Mismatch r || rowFy2Mismatch r || rowAllocMismatch r)

/-- The strict validation step: `raise ValueError(...)` on any mismatch
(parse_sf133_raw_data.py:391, 424), otherwise the parsed table. -/
def validateFile (rows : List InputRow) : Except String (List InputRow) :=
  if fileHasMismatch rows then
    Except.error "TAFS parsing validation failed"
  else Except.ok rows

/-- `parse_sf133_raw_data`'s observable result: the `ValueError` is caught
by the function's own `except Exception` (line 522), which returns `None`.
So a mismatching file yields `none`, not a propagated failure. -/
def parseFile (rows : List InputRow) : Option (List InputRow) :=
  match validateFile rows with
  | Except.ok t => some t
  | Except.error _ => none

/-- `parse_all_sf133_raw_data` (lines 526-601): files yielding `none` are
skipped ("Skipping - no data extracted") and the run continues; the master
table is written from the concatenation of the successful files, and
`none` is returned only when no file at all produced data. -/
def parseAllFiles (files : List (List InputRow)) : Option (List InputRow) :=
  let allData := files.filterMap parseFile
  if allData.isEmpty then none else some allData.flatten

/-! ### Standard-layout record aggregation (parse_sf133_raw_data.py:430-514)

The grouping key is `BUREAU, OMB_ACCT, LINENO, DERIVED_FY1, DERIVED_FY2,
DERIVED_ALLOC` extended with the additional identifier columns
`TRACCT, TRAG` when present (modelled as always present); month columns
are summed, every other column takes the first value of its group. -/

/-- Canonical month keys (the values of `RAW_DATA_COLUMN_MAPPING`). -/
inductive Month where
  | oct | nov | dec | jan | feb | mar | apr | may | jun | jul | aug | sep
deriving DecidableEq, Repr

/-- The grouping key of the standard aggregation
(parse_sf133_raw_data.py:205, 432, 435-438). -/
structure RawKey where
  bureau : String
  ombAcct : String
  lineno : Nat
  dfy1 : String
  dfy2 : String
  dalloc : String
  tracct : String
  trag : String
deriving DecidableEq, Repr

/-- One normalized raw-data row entering the aggregation: its key columns,
a representative descriptive column, and its month amounts (`none` =
missing cell, which pandas' `sum` skips). -/
structure RawRow where
  bureau : String
  ombAcct : String
  lineno : Nat
  dfy1 : String
  dfy2 : String
  dalloc : String
  tracct : String
  trag : String
  lineDesc : String
  amounts : Month → Option ℚ

/-- The key tuple of a row. -/
def RawRow.key (r : RawRow) : RawKey :=
  ⟨r.bureau, r.ombAcct, r.lineno, r.dfy1, r.dfy2, r.dalloc, r.tracct, r.trag⟩

/-- One aggregated output row. -/
structure AggRow where
  key : RawKey
  lineDesc : String
  amounts : Month → ℚ

/-- `groupby(grouping_cols, as_index=False).agg(agg_dict)`
(parse_sf133_raw_data.py:496): one output row per distinct key; each month
amount is the sum over the group (missing cells contribute 0, pandas
`skipna`); descriptive columns take the group's first value. -/
def aggregateRows (rows : List RawRow) : List AggRow :=
  ((rows.map RawRow.key).dedup).map (fun k =>
    { key := k
      lineDesc :=
        (((rows.filter (fun r => r.key = k)).head?).map RawRow.lineDesc).getD ""
      amounts := fun m =>
        ((rows.filter (fun r => r.key = k)).map
          (fun r => (r.amounts m).getD 0)).sum })

/-! ### 2012 layout (parse_sf133_2012.py) -/

/-- One 2012 raw-data row: the 2012 per-file aggregation groups only by
`BUREAU, OMB_ACCT, LINENO` (parse_sf133_2012.py:144); every other column —
including `ALLOC` and the fiscal-year markers — is reduced with `'first'`
(line 159). -/
structure Row2012 where
  bureau : String
  ombAcct : String
  lineno : Nat
  alloc : String
  agency : String
  amount : Option ℚ
deriving Repr

/-- The 2012 grouping key: bureau, account and line number only. -/
def Row2012.key (r : Row2012) : String × String × Nat :=
  (r.bureau, r.ombAcct, r.lineno)

/-- One 2012 aggregated row. -/
structure Agg2012 where
  bureau : String
  ombAcct : String
  lineno : Nat
  alloc : String
  agency : String
  amount : ℚ
deriving Repr

/-- The 2012 per-file `groupby(['BUREAU','OMB_ACCT','LINENO']).agg(...)`
(parse_sf133_2012.py:162): the single month column is summed, `ALLOC` and
the rest take the group's first value. -/
def aggregate2012 (rows : List Row2012) : List Agg2012 :=
  ((rows.map Row2012.key).dedup).map (fun k =>
    let grp := rows.filter (fun r => r.key = k)
    { bureau := k.1
      ombAcct := k.2.1
      lineno := k.2.2
      alloc := ((grp.head?).map Row2012.alloc).getD ""
      agency := ((grp.head?).map Row2012.agency).getD ""
      amount := (grp.map (fun r => (r.amount).getD 0)).sum })

/-- The key on which the 2012 month pivot groups
(parse_sf133_2012.py:242): bureau, account, line number, agency. -/
structure PivotKey where
  bureau : String
  ombAcct : String
  lineno : Nat
  agency : String
deriving DecidableEq, Repr

/-- The month columns the 2012 pivot handles (parse_sf133_2012.py:244 and
259): each 2012 file carries exactly one of `Nov`, `Jul`, `Aug`. -/
def months2012 : List Month := [Month.nov, Month.jul, Month.aug]

/-- After concatenating all per-file tables, the data seen by the pivot is
a list of `(key, month, amount)` observations. -/
def PivotEntry : Type := PivotKey × Month × ℚ

/-- The month columns present in the pivoted table: those of the three
2012 months that occur in the concatenated data (a value column appears in
the pivot output only when some row carries it). -/
def producedMonths (es : List PivotEntry) : List Month :=
  months2012.filter (fun m => m ∈ es.map (fun e => e.2.1))

/-- `aggfunc='first'` cell lookup of the pivot
(parse_sf133_2012.py:241-246): the first observation for the given key and
month, if any. -/
def pivotLookup (es : List PivotEntry) (k : PivotKey) (m : Month) :
    Option ℚ :=
  ((es.filter (fun e => e.1 = k ∧ e.2.1 = m)).head?).map (fun e => e.2.2)

/-- The 2012 combine step (parse_sf133_2012.py:241-261): one record per
distinct key; every produced month column carries an explicit value, with
`fillna(0)` turning a month the key has no observation for into an
explicit zero. -/
def pivot2012 (es : List PivotEntry) : List (PivotKey × List (Month × ℚ)) :=
  ((es.map (fun e => e.1)).dedup).map (fun k =>
    (k, (producedMonths es).map (fun m => (m, (pivotLookup es k m).getD 0))))

/-! ### Month-completeness validation
(year_processor.py:223-250, `SF133YearProcessor._analyze_year_data`) -/

/-- The fiscal-year month order (year_processor.py:147). -/
def allMonths : List Month :=
  [Month.oct, Month.nov, Month.dec, Month.jan, Month.feb, Month.mar,
   Month.apr, Month.may, Month.jun, Month.jul, Month.aug, Month.sep]

/-- The months reported missing: those without data (no column, or a total
within the emptiness threshold — abstracted here as a per-month flag). -/
def missingMonths (hasData : Month → Bool) : List Month :=
  allMonths.filter (fun m => !hasData m)

/-- The month-completeness check (year_processor.py:224-230): for a
non-current fiscal year the validation fails exactly when some month other
than October is missing (`critical_missing_months` non-empty); October is
exempt, and a current fiscal year never fails this check. -/
def monthCompletenessFails (isCurrentFY : Bool) (hasData : Month → Bool) :
    Bool :=
  !isCurrentFY &&
    ((missingMonths hasData).filter (fun m => m ≠ Month.oct)).length > 0

/-! ### Helper lemmas -/

/-- Every month is in the fiscal-year month list. -/
lemma mem_allMonths (m : Month) : m ∈ allMonths := by
  cases m <;> simp [allMonths]

/-- The keys of the aggregated rows are exactly the deduplicated keys of
the input rows. -/
lemma aggregateRows_map_key (rows : List RawRow) :
    (aggregateRows rows).map AggRow.key = (rows.map RawRow.key).dedup := by
  unfold aggregateRows
  rw [List.map_map]
  exact List.map_id _

/-! ### Claim theorems -/

/-- Claim C4: the standard-layout TAFS grammar parses
`"17-1804 /20 - Operation and Maintenance, Navy"` to account number
`"17-1804"`, begin period absent (empty FY1), end period `"20"`, and
description `"Operation and Maintenance, Navy"`; `"73-0100 12/13"` to
begin period `"12"` and end period `"13"`; and `"12-2500 /X"` to end
period `"X"` with display period `"No Year"`. -/
theorem c4_standard_tafs_grammar :
    parseTafsToMatchFy1Fy2
      (some "17-1804 /20 - Operation and Maintenance, Navy") = ("", "20") ∧
    (parseTafsComponents "17-1804 /20 - Operation and Maintenance, Navy"
      "Department of Defense-Military").1 = "17-1804" ∧
    extractAccountName "17-1804 /20 - Operation and Maintenance, Navy" =
      "Operation and Maintenance, Navy" ∧
    parseTafsToMatchFy1Fy2 (some "73-0100 12/13") = ("12", "13") ∧
    parseTafsToMatchFy1Fy2 (some "12-2500 /X") = ("", "X") ∧
    (parseTafsComponents "12-2500 /X" "Department of Education").2.1 =
      "No Year" := by
  refine ⟨by decide, by decide, by decide, by decide, by decide, by decide⟩

/-- Claim C5: the catch-all (Other Independent Agencies) TAFS grammar
parses `"95-2300 24/25 - Salaries and Expenses"` to account number
`"95-2300"`, period display `"FY2024-FY2025"`, and expiration year
`"2025"`. -/
theorem c5_catch_all_tafs_grammar :
    parseTafsComponents "95-2300 24/25 - Salaries and Expenses"
      "Other Independent Agencies" = ("95-2300", "FY2024-FY2025", "2025") := by
  decide

/-- Claim C2: every summary record (on both merger paths) carries the
percent-unobligated value given by the rule: 0 when both budget authority
and unobligated balance are zero, 100 when budget authority is zero and
the balance is non-zero, and `balance/authority*100` otherwise — including
authority `-200` with balance `50` giving `-25`, with no clamping. -/
theorem c2_percent_unobligated :
    (∀ rows : List MasterRow, ∀ s ∈ summaryStandard rows,
      s.pct = pctCalc s.unob s.ba) ∧
    (∀ rows : List OIARow, ∀ s ∈ summaryOIA rows,
      s.pct = pctCalc s.unob s.ba) ∧
    pctCalc 0 0 = 0 ∧
    (∀ unob : ℚ, unob ≠ 0 → pctCalc unob 0 = 100) ∧
    (∀ unob ba : ℚ, ba ≠ 0 → pctCalc unob ba = unob / ba * 100) ∧
    pctCalc 50 (-200) = -25 := by
  refine ⟨?_, ?_, ?_, ?_, ?_, ?_⟩
  · intro rows s hs
    obtain ⟨p, _, rfl⟩ := List.mem_map.mp hs
    rfl
  · intro rows s hs
    obtain ⟨p, _, rfl⟩ := List.mem_map.mp hs
    rfl
  · rfl
  · intro unob h
    simp [pctCalc, h]
  · intro unob ba h
    simp [pctCalc, h]
  · norm_num [pctCalc]

/-- Concrete master rows used to witness Claim C2's merger-path
conjunct. -/
def c2Row2490 : MasterRow :=
  { agency := "A", col0 := "Bu", col1 := "Acct",
    col4 := "17-1804 /20 - Ops", lineNo := some 2490, amt := 1000000 }

/-- The matching line-2500 row for the Claim C2 witness. -/
def c2Row2500 : MasterRow :=
  { c2Row2490 with lineNo := some 2500, amt := 2000000 }

/-- The summary record the merger produces from the two rows above. -/
def c2SummaryRec : SummaryRec :=
  (summaryStandard [c2Row2490, c2Row2500]).getD 0 default

/-- Witness for Claim C2: the hypotheses are satisfiable — a concrete
produced record satisfies the percent rule, and the zero-authority branch
fires on a concrete non-zero balance. -/
theorem c2_percent_unobligated_witness :
    c2SummaryRec.pct = pctCalc c2SummaryRec.unob c2SummaryRec.ba ∧
    pctCalc 500 0 = 100 := by
  refine ⟨?_, ?_⟩
  · exact c2_percent_unobligated.1 [c2Row2490, c2Row2500] c2SummaryRec
      (List.mem_cons_self _ _)
  · exact c2_percent_unobligated.2.2.2.1 500 (by norm_num)

/-- The file whose single row carries an authoritative `FY1` of `"12"`
while its TAFS text `"73-0100 13/14"` parses to a begin period of `"13"` —
a grammar-validation mismatch. -/
def c1BadFile : List InputRow :=
  [{ tafs := "73-0100 13/14", fy1 := some "12", fy2 := some "14",
     alloc := some "73" }]

/-- A file whose row passes validation (all authoritative columns agree
with the TAFS-derived values). -/
def c1GoodFile : List InputRow :=
  [{ tafs := "17-1804 /20", fy1 := some "", fy2 := some "20",
     alloc := some "17" }]

/-- Claim C1 (code bug): on a run whose first file has a row with an
authoritative begin-period mismatching the TAFS-derived value, the
validation does raise (`validateFile` errors and `fileHasMismatch` is
true), but `parse_sf133_raw_data`'s own blanket exception handler turns
that into `None` (`parseFile` = `none`), and the run *continues*: the
master table is still produced from the remaining files — the offending
file is skipped rather than the run aborting with no master table. -/
theorem c1_mismatch_skips_file_and_run_continues :
    fileHasMismatch c1BadFile = true ∧
    validateFile c1BadFile =
      Except.error "TAFS parsing validation failed" ∧
    parseFile c1BadFile = none ∧
    fileHasMismatch c1GoodFile = false ∧
    parseAllFiles [c1BadFile, c1GoodFile] = some c1GoodFile := by
  refine ⟨by decide, rfl, rfl, by decide, by decide⟩

/-- First of two rows with identical key tuples and an August amount of
100, for the aggregation example. -/
def c3RowA : RawRow :=
  { bureau := "B", ombAcct := "0100", lineno := 2490, dfy1 := "12",
    dfy2 := "13", dalloc := "73", tracct := "", trag := "",
    lineDesc := "d1",
    amounts := fun m => if m = Month.aug then some 100 else none }

/-- Second row with the same key tuple and an August amount of 50. -/
def c3RowB : RawRow :=
  { c3RowA with
    lineDesc := "d2"
    amounts := fun m => if m = Month.aug then some 50 else none }

/-- A row whose derived allocation code is `"73"`. -/
def c3RowX : RawRow :=
  { c3RowA with dalloc := "73" }

/-- A row identical to `c3RowX` except for its derived allocation code. -/
def c3RowY : RawRow :=
  { c3RowA with dalloc := "91" }

/-- A 2012-layout row with allocation code `"01"` and amount 100. -/
def c3Row2012A : Row2012 :=
  { bureau := "B", ombAcct := "0100", lineno := 2490, alloc := "01",
    agency := "Ag", amount := some 100 }

/-- A 2012-layout row identical except for allocation code `"02"` and
amount 50. -/
def c3Row2012B : Row2012 :=
  { c3Row2012A with alloc := "02", amount := some 50 }

/-- Counterexample to Claim C3: on the 2012 single-month path the grouping
key is only (bureau, account, line number), so two rows that differ *only*
in their allocation code are merged into a single output row whose amount
is the sum 150 — contradicting "two rows differing only in allocation_code
are never merged, on every layout path including the 2012 single-month
path". -/
theorem c3_counterexample_2012_alloc_merged :
    c3Row2012A.bureau = c3Row2012B.bureau ∧
    c3Row2012A.ombAcct = c3Row2012B.ombAcct ∧
    c3Row2012A.lineno = c3Row2012B.lineno ∧
    c3Row2012A.agency = c3Row2012B.agency ∧
    c3Row2012A.alloc ≠ c3Row2012B.alloc ∧
    (aggregate2012 [c3Row2012A, c3Row2012B]).length = 1 ∧
    (aggregate2012 [c3Row2012A, c3Row2012B]).map Agg2012.amount = [150] := by
  refine ⟨rfl, rfl, rfl, rfl, by decide, rfl, ?_⟩
  have h : (aggregate2012 [c3Row2012A, c3Row2012B]).map Agg2012.amount
      = [(100 : ℚ) + (50 + 0)] := rfl
  rw [h]
  norm_num

/-- Claim C3 (amended): on the standard layout path the Record Aggregator
produces exactly one row per distinct key tuple (bureau, account, line
number, derived begin/end period, derived allocation code, plus the
additional identifier columns), each month amount being the sum over the
rows sharing the key — in particular 100 and 50 aggregate to 150 — and two
rows differing in allocation code are never merged *on the standard path*;
on the 2012 single-month path the key omits the allocation code, so two
rows differing only in allocation code are merged there, with their
amounts summed (150). -/
theorem c3_aggregation_key_and_sums :
    (∀ rows : List RawRow,
      (aggregateRows rows).map AggRow.key = (rows.map RawRow.key).dedup) ∧
    (∀ rows : List RawRow, ((aggregateRows rows).map AggRow.key).Nodup) ∧
    (∀ rows : List RawRow, ∀ a ∈ aggregateRows rows, ∀ m : Month,
      a.amounts m = ((rows.filter (fun r => r.key = a.key)).map
        (fun r => (r.amounts m).getD 0)).sum) ∧
    ((aggregateRows [c3RowA, c3RowB]).map
      (fun a => a.amounts Month.aug) = [150]) ∧
    (∀ (rows : List RawRow) (r1 r2 : RawRow), r1 ∈ rows → r2 ∈ rows →
      r1.dalloc ≠ r2.dalloc →
      r1.key ≠ r2.key ∧
      r1.key ∈ (aggregateRows rows).map AggRow.key ∧
      r2.key ∈ (aggregateRows rows).map AggRow.key) ∧
    ((aggregate2012 [c3Row2012A, c3Row2012B]).map Agg2012.amount =
      [150]) := by
  refine ⟨?_, ?_, ?_, ?_, ?_, ?_⟩
  · exact aggregateRows_map_key
  · intro rows
    rw [aggregateRows_map_key]
    exact (rows.map RawRow.key).nodup_dedup
  · intro rows a ha m
    obtain ⟨k, _, rfl⟩ := List.mem_map.mp ha
    rfl
  · have h : (aggregateRows [c3RowA, c3RowB]).map
        (fun a => a.amounts Month.aug) = [(100 : ℚ) + (50 + 0)] := rfl
    rw [h]
    norm_num
  · intro rows r1 r2 h1 h2 hd
    refine ⟨?_, ?_, ?_⟩
    · intro hk
      exact hd (congrArg RawKey.dalloc hk)
    · rw [aggregateRows_map_key]
      exact List.mem_dedup.mpr (List.mem_map_of_mem _ h1)
    · rw [aggregateRows_map_key]
      exact List.mem_dedup.mpr (List.mem_map_of_mem _ h2)
  · have h : (aggregate2012 [c3Row2012A, c3Row2012B]).map Agg2012.amount
        = [(100 : ℚ) + (50 + 0)] := rfl
    rw [h]
    norm_num

/-- Witness for Claim C3 (amended): two concrete rows differing only in
their derived allocation code land under distinct keys, both of which
appear among the aggregated output keys. -/
theorem c3_aggregation_key_and_sums_witness :
    c3RowX.key ≠ c3RowY.key ∧
    c3RowX.key ∈ (aggregateRows [c3RowX, c3RowY]).map AggRow.key ∧
    c3RowY.key ∈ (aggregateRows [c3RowX, c3RowY]).map AggRow.key :=
  c3_aggregation_key_and_sums.2.2.2.2.1 [c3RowX, c3RowY] c3RowX c3RowY
    (List.mem_cons_self _ _) (List.mem_cons_of_mem _ (List.mem_cons_self _ _))
    (by decide)

/-- Claim C6: the unit multiplier is 1000 exactly when the header text
carries the token `thousand`, and 1 otherwise (dollars or undetected);
under multiplier 1000 a raw cell of 1234 becomes 1234000, under
multiplier 1 it is unchanged, and denylisted identifier columns are never
scaled. -/
theorem c6_unit_normalization :
    (∀ cells : List String,
      containsSub (textContent cells) "thousand" = true →
      detectFileUnits (some cells) = 1000) ∧
    (∀ cells : List String,
      containsSub (textContent cells) "thousand" = false →
      detectFileUnits (some cells) = 1) ∧
    (∀ cols : List (String × ℚ), applyUnitMultiplier 1000 cols =
      cols.map (fun p => if p.1 ∈ amountDenylist then p
        else (p.1, p.2 * ((1000 : Nat) : ℚ)))) ∧
    (∀ cols : List (String × ℚ), applyUnitMultiplier 1 cols = cols) ∧
    applyUnitMultiplier 1000 [("Oct", (1234 : ℚ))] =
      [("Oct", (1234000 : ℚ))] ∧
    applyUnitMultiplier 1 [("Oct", (1234 : ℚ))] = [("Oct", (1234 : ℚ))] ∧
    (∀ (mult : Nat) (cols : List (String × ℚ)) (p : String × ℚ),
      p ∈ cols → p.1 ∈ amountDenylist →
      p ∈ applyUnitMultiplier mult cols) := by
  refine ⟨?_, ?_, ?_, ?_, ?_, ?_, ?_⟩
  · intro cells h
    simp [detectFileUnits, h]
  · intro cells h
    simp [detectFileUnits, h]
  · intro cols
    unfold applyUnitMultiplier
    rw [if_neg (by norm_num)]
  · intro cols
    simp [applyUnitMultiplier]
  · have h : applyUnitMultiplier 1000 [("Oct", (1234 : ℚ))] =
        [("Oct", (1234 : ℚ) * ((1000 : Nat) : ℚ))] := rfl
    rw [h]
    norm_num
  · rfl
  · intro mult cols p hp hd
    unfold applyUnitMultiplier
    split
    · exact hp
    · exact List.mem_map.mpr ⟨p, hp, by rw [if_pos hd]⟩

/-- Witness for Claim C6: a concrete "thousands" header detects 1000, a
concrete "dollars" header detects 1, and a concrete denylisted column
survives a 1000x multiplier unscaled. -/
theorem c6_unit_normalization_witness :
    detectFileUnits (some ["SF 133", "(Amounts in Thousands)"]) = 1000 ∧
    detectFileUnits (some ["(Amounts in Dollars)"]) = 1 ∧
    ("LINENO", (7 : ℚ)) ∈ applyUnitMultiplier 1000 [("LINENO", (7 : ℚ))] := by
  refine ⟨?_, ?_, ?_⟩
  · exact c6_unit_normalization.1 _ (by decide)
  · exact c6_unit_normalization.2.1 _ (by decide)
  · exact c6_unit_normalization.2.2.2.2.2.2 1000 _ _
      (List.mem_cons_self _ _) (by decide)

/-- Claim C7: on the 2012 single-month-per-file layout, after the pivot
that combines an agency's per-month files into one record per account key,
every produced month column holds an explicit value on every output
record; a month for which the key has no observation is an explicit zero,
never absent. -/
theorem c7_2012_pivot_explicit_zero :
    ∀ (es : List PivotEntry) (k : PivotKey) (cols : List (Month × ℚ)),
      (k, cols) ∈ pivot2012 es →
      ∀ m ∈ producedMonths es,
        (m, (pivotLookup es k m).getD 0) ∈ cols ∧
        (pivotLookup es k m = none → (m, 0) ∈ cols) := by
  intro es k cols hmem m hm
  obtain ⟨k', _, heq⟩ := List.mem_map.mp hmem
  injection heq with h1 h2
  subst h1
  subst h2
  constructor
  · exact List.mem_map_of_mem _ hm
  · intro h0
    have hmem2 : (m, (pivotLookup es k' m).getD 0) ∈
        (producedMonths es).map
          (fun mm => (mm, (pivotLookup es k' mm).getD 0)) :=
      List.mem_map_of_mem _ hm
    rw [h0] at hmem2
    exact hmem2

/-- A pivot key that has a November observation. -/
def c7K1 : PivotKey := ⟨"B", "0100", 2490, "Ag"⟩

/-- A pivot key that has only a July observation (no November file). -/
def c7K2 : PivotKey := ⟨"B", "0200", 2490, "Ag"⟩

/-- Concrete pivot input: November data for one key, July data for the
other, so both `Nov` and `Jul` are produced columns. -/
def c7Entries : List PivotEntry :=
  [(c7K1, Month.nov, 100), (c7K2, Month.jul, 50)]

/-- The pivoted month columns of the key without a November file. -/
def c7ColsK2 : List (Month × ℚ) :=
  ((pivot2012 c7Entries).getD 1 (c7K2, [])).2

/-- Witness for Claim C7: the key with no November observation gets an
explicit `(Nov, 0)` entry in its pivoted record. -/
theorem c7_2012_pivot_explicit_zero_witness :
    (Month.nov, (0 : ℚ)) ∈ c7ColsK2 :=
  (c7_2012_pivot_explicit_zero c7Entries c7K2 c7ColsK2
    (List.mem_cons_of_mem _ (List.mem_cons_self _ _)) Month.nov
    (List.mem_cons_self _ _)).2 rfl

/-- Decomposition of a produced standard-path summary record: it comes
from an inner-join pair — a line-2490 row and a line-2500 row of the same
agency and TAFS text — and carries that agency and TAFS text. -/
lemma mem_summaryStandard (rows : List MasterRow) (s : SummaryRec)
    (hs : s ∈ summaryStandard rows) :
    ∃ a b : MasterRow, a ∈ rows ∧ b ∈ rows ∧
      a.lineNo = some 2490 ∧ b.lineNo = some 2500 ∧
      b.agency = a.agency ∧ b.col4 = a.col4 ∧
      s.agency = a.agency ∧ s.tafs = a.col4 := by
  obtain ⟨⟨a, b⟩, hab, rfl⟩ := List.mem_map.mp hs
  obtain ⟨a', ha', hmem⟩ := List.mem_flatMap.mp hab
  obtain ⟨b', hb', heq⟩ := List.mem_map.mp hmem
  injection heq with e1 e2
  subst e1
  subst e2
  have ha2 := List.mem_filter.mp ha'
  have hb1 := List.mem_filter.mp hb'
  have hb2 := List.mem_filter.mp hb1.1
  refine ⟨a', b', ha2.1, hb2.1, ?_, ?_, ?_, ?_, rfl, rfl⟩
  · simpa using ha2.2
  · simpa using hb2.2
  · exact (of_decide_eq_true hb1.2).1
  · exact (of_decide_eq_true hb1.2).2

/-- Decomposition of a produced OIA summary record: it comes from an
inner-join pair of a `Col_9 = 2490` row and a `Col_9 = 2500` row with the
same `Col_6` TAFS text, which it carries. -/
lemma mem_summaryOIA (rows : List OIARow) (s : SummaryRec)
    (hs : s ∈ summaryOIA rows) :
    ∃ a b : OIARow, a ∈ rows ∧ b ∈ rows ∧
      a.col9 = some 2490 ∧ b.col9 = some 2500 ∧
      b.col6 = a.col6 ∧ s.tafs = a.col6 := by
  obtain ⟨⟨a, b⟩, hab, rfl⟩ := List.mem_map.mp hs
  obtain ⟨a', ha', hmem⟩ := List.mem_flatMap.mp hab
  obtain ⟨b', hb', heq⟩ := List.mem_map.mp hmem
  injection heq with e1 e2
  subst e1
  subst e2
  have ha2 := List.mem_filter.mp ha'
  have hb1 := List.mem_filter.mp hb'
  have hb2 := List.mem_filter.mp hb1.1
  refine ⟨a', b', ha2.1, hb2.1, ?_, ?_, ?_, rfl⟩
  · simpa using ha2.2
  · simpa using hb2.2
  · simpa using hb1.2

/-- Claim C8: an account key that has a row for only one of the two target
line numbers does not appear in the summary output — on either merger
path, and in either direction (2490 without 2500, or 2500 without
2490). -/
theorem c8_merge_exclusion :
    (∀ (rows : List MasterRow) (ag tf : String),
      (∀ r ∈ rows, r.agency = ag → r.col4 = tf → r.lineNo ≠ some 2500) →
      ((summaryStandard rows).all
        (fun s => decide ¬(s.agency = ag ∧ s.tafs = tf))) = true) ∧
    (∀ (rows : List MasterRow) (ag tf : String),
      (∀ r ∈ rows, r.agency = ag → r.col4 = tf → r.lineNo ≠ some 2490) →
      ((summaryStandard rows).all
        (fun s => decide ¬(s.agency = ag ∧ s.tafs = tf))) = true) ∧
    (∀ (rows : List OIARow) (tf : String),
      (∀ r ∈ rows, r.col6 = tf → r.col9 ≠ some 2500) →
      ((summaryOIA rows).all (fun s => decide (s.tafs ≠ tf))) = true) ∧
    (∀ (rows : List OIARow) (tf : String),
      (∀ r ∈ rows, r.col6 = tf → r.col9 ≠ some 2490) →
      ((summaryOIA rows).all (fun s => decide (s.tafs ≠ tf))) = true) := by
  refine ⟨?_, ?_, ?_, ?_⟩
  · intro rows ag tf hno
    rw [List.all_eq_true]
    intro s hs
    rw [decide_eq_true_eq]
    rintro ⟨hag, hts⟩
    obtain ⟨a, b, _, hb, _, hb25, hbag, hbc4, hsag, hstafs⟩ :=
      mem_summaryStandard rows s hs
    exact hno b hb (by rw [hbag, ← hsag, hag]) (by rw [hbc4, ← hstafs, hts])
      hb25
  · intro rows ag tf hno
    rw [List.all_eq_true]
    intro s hs
    rw [decide_eq_true_eq]
    rintro ⟨hag, hts⟩
    obtain ⟨a, b, ha, _, ha24, _, _, _, hsag, hstafs⟩ :=
      mem_summaryStandard rows s hs
    exact hno a ha (by rw [← hsag, hag]) (by rw [← hstafs, hts]) ha24
  · intro rows tf hno
    rw [List.all_eq_true]
    intro s hs
    rw [decide_eq_true_eq]
    intro hts
    obtain ⟨a, b, _, hb, _, hb25, hbc6, hstafs⟩ := mem_summaryOIA rows s hs
    exact hno b hb (by rw [hbc6, ← hstafs, hts]) hb25
  · intro rows tf hno
    rw [List.all_eq_true]
    intro s hs
    rw [decide_eq_true_eq]
    intro hts
    obtain ⟨a, b, ha, _, ha24, _, _, hstafs⟩ := mem_summaryOIA rows s hs
    exact hno a ha (by rw [← hstafs, hts]) ha24

/-- A master table holding a line-2490 row with no matching line-2500
row. -/
def c8OnlyRow : MasterRow :=
  { agency := "A", col0 := "Bu", col1 := "Acct", col4 := "T",
    lineNo := some 2490, amt := 5 }

/-- Witness for Claim C8: with only the 2490 side present, no summary
record carries that account key. -/
theorem c8_merge_exclusion_witness :
    ((summaryStandard [c8OnlyRow]).all
      (fun s => decide ¬(s.agency = "A" ∧ s.tafs = "T"))) = true :=
  c8_merge_exclusion.1 [c8OnlyRow] "A" "T" (by decide)

/-- Claim C9: unit detection gives "thousands" priority over "dollars" —
when the token `thousand` occurs in the scanned header text the multiplier
is 1000 even if `dollar` occurs too — and a failed sheet read yields
multiplier 1. -/
theorem c9_thousands_priority :
    (∀ cells : List String,
      containsSub (textContent cells) "thousand" = true →
      containsSub (textContent cells) "dollar" = true →
      detectFileUnits (some cells) = 1000) ∧
    detectFileUnits (some ["SF 133 (in Thousands of Dollars)"]) = 1000 ∧
    detectFileUnits none = 1 := by
  refine ⟨?_, by decide, rfl⟩
  intro cells h _
  simp [detectFileUnits, h]

/-- Witness for Claim C9: a concrete header containing both tokens
detects 1000. -/
theorem c9_thousands_priority_witness :
    detectFileUnits (some ["amounts in thousands of dollars"]) = 1000 :=
  c9_thousands_priority.1 _ (by decide) (by decide)

/-- Claim C10: for a completed (non-current) fiscal year, the
month-completeness validation fails exactly when some month other than
October has no data; a historical year whose only missing month is
October still passes. -/
theorem c10_month_completeness :
    (∀ hasData : Month → Bool,
      (monthCompletenessFails false hasData = true ↔
        ∃ m : Month, m ≠ Month.oct ∧ hasData m = false)) ∧
    monthCompletenessFails false (fun m => !(m == Month.oct)) = false := by
  constructor
  · intro hasData
    unfold monthCompletenessFails missingMonths
    simp only [Bool.not_false, Bool.true_and, decide_eq_true_eq]
    rw [gt_iff_lt, List.length_pos_iff_exists_mem]
    constructor
    · rintro ⟨m, hm⟩
      have h2 := List.mem_filter.mp hm
      have h3 := List.mem_filter.mp h2.1
      refine ⟨m, ?_, ?_⟩
      · simpa using h2.2
      · simpa using h3.2
    · rintro ⟨m, hne, hfalse⟩
      exact ⟨m, List.mem_filter.mpr
        ⟨List.mem_filter.mpr ⟨mem_allMonths m, by simp [hfalse]⟩,
         by simp [hne]⟩⟩
  · decide

/-- Witness for Claim C10: a completed year with every month missing fails
the month-completeness check. -/
theorem c10_month_completeness_witness :
    monthCompletenessFails false (fun _ => false) = true :=
  (c10_month_completeness.1 (fun _ => false)).mpr ⟨Month.nov, by decide, rfl⟩
